import Mathlib

/-!
Verification of the EIA nuclear-outage incremental sync function
(`myTimerFunction/__init__.py`).

The embedding models the single sync pass: connecting to storage,
reading the watermark (`SELECT TOP 1 period ... ORDER BY period DESC`),
computing the fetch window, retrieving and cleaning API data, and
appending new rows with `to_sql`.

Calendar dates are a `(year, month, day)` triple of naturals with the
Gregorian leap-year rule; Python `datetime.date` objects are always
valid dates, and ordering on them is lexicographic.  `strptime` with
format `"%Y-%m-%d"` is modelled by `parseYmd` (exactly four year
digits, one or two month/day digits, calendar validity, whole-string
match), and `pd.to_numeric(errors="coerce")` by `parseNum` (optionally
signed decimal numerals, anything else coercing to null).  JSON scalar
cells arrive as their string rendering or as null.
-/

set_option autoImplicit false

namespace EIASync

/-- A calendar date, the `datetime.date` of the source. -/
structure Date where
  year : Nat
  month : Nat
  day : Nat
deriving DecidableEq, Repr

/-- Gregorian leap-year rule, as used by `datetime` for day-of-month validity. -/
def isLeap (y : Nat) : Bool :=
  (y % 4 == 0 && y % 100 != 0) || y % 400 == 0

/-- Number of days in a month of a given year. -/
def daysInMonth (y m : Nat) : Nat :=
  if m = 2 then (if isLeap y then 29 else 28)
  else if m = 4 ∨ m = 6 ∨ m = 9 ∨ m = 11 then 30
  else 31

/-- Lexicographic order on dates; agrees with `datetime.date` comparison
on valid dates. -/
def dateLe (a b : Date) : Bool :=
  decide (a.year < b.year ∨ (a.year = b.year ∧
    (a.month < b.month ∨ (a.month = b.month ∧ a.day ≤ b.day))))

/-- The larger of two dates under `dateLe`. -/
def maxDate (a b : Date) : Date :=
  if dateLe a b then b else a

/-- `d + datetime.timedelta(days=1)` on a valid date. -/
def nextDay (dt : Date) : Date :=
  if dt.day < daysInMonth dt.year dt.month then ⟨dt.year, dt.month, dt.day + 1⟩
  else if dt.month < 12 then ⟨dt.year, dt.month + 1, 1⟩
  else ⟨dt.year + 1, 1, 1⟩

/-- Split a character list at every occurrence of `sep` (the parts between
separators, in order). -/
def splitOnChar (sep : Char) : List Char → List (List Char)
  | [] => [[]]
  | c :: cs =>
    if c = sep then [] :: splitOnChar sep cs
    else
      match splitOnChar sep cs with
      | [] => [[c]]
      | p :: ps => (c :: p) :: ps

/-- The numeric value of a decimal digit character, or `none`. -/
def digitVal (c : Char) : Option Nat :=
  if '0' ≤ c ∧ c ≤ '9' then some (c.toNat - '0'.toNat) else none

/-- Read a non-empty all-digit character list as a natural number. -/
def digitsToNat (cs : List Char) : Option Nat :=
  if cs = [] then none
  else cs.foldl (fun acc c => acc.bind fun n => (digitVal c).map fun d => n * 10 + d) (some 0)

/-- `datetime.datetime.strptime(s, "%Y-%m-%d").date()` as a total function:
`%Y` is exactly four digits, `%m` and `%d` are one or two digits, the whole
string must be consumed, and the triple must be a valid calendar date
(`datetime.date` also requires `year ≥ 1`).  `none` models the `ValueError`
the call raises on failure. -/
def parseYmd (s : String) : Option Date :=
  match splitOnChar '-' s.toList with
  | [ys, ms, ds] =>
    match digitsToNat ys, digitsToNat ms, digitsToNat ds with
    | some y, some m, some d =>
      if ys.length = 4 ∧ 1 ≤ y ∧ ms.length ≤ 2 ∧ 1 ≤ m ∧ m ≤ 12 ∧
          ds.length ≤ 2 ∧ 1 ≤ d ∧ d ≤ daysInMonth y m
      then some ⟨y, m, d⟩ else none
    | _, _, _ => none
  | _ => none

/-- A parsed decimal number `mant / 10 ^ scale`, the result of numeric
coercion (only its presence matters to the sync logic, never its value). -/
structure DecNum where
  mant : Int
  scale : Nat
deriving DecidableEq, Repr

/-- Numeric part of `pd.to_numeric(errors="coerce")` on one cell: an
unsigned decimal numeral, optionally with a fractional part. -/
def parseNumCore (cs : List Char) : Option DecNum :=
  match splitOnChar '.' cs with
  | [a] => (digitsToNat a).map fun n => ⟨(n : Int), 0⟩
  | [a, b] =>
    match digitsToNat a, digitsToNat b with
    | some n, some f => some ⟨(n : Int) * (10 : Int) ^ b.length + (f : Int), b.length⟩
    | _, _ => none
  | _ => none

/-- `pd.to_numeric(errors="coerce")` on one cell: a decimal numeral with
optional sign parses, anything else coerces to null (`none`). -/
def parseNum (s : String) : Option DecNum :=
  match s.toList with
  | '-' :: rest => (parseNumCore rest).map fun q => ⟨-q.mant, q.scale⟩
  | cs => parseNumCore cs

/-- One raw row of `response.data` after the unit-suffix metadata columns
(`capacity-units` etc.) are dropped: each remaining cell is a JSON scalar
rendered as a string, or JSON null. -/
structure RawRow where
  period : Option String
  capacity : Option String
  outage : Option String
  percentOutage : Option String
deriving DecidableEq, Repr

/-- One cleaned row after type coercion: `period` coerced to a date,
the three measures to numerics, failures and nulls as `none`. -/
structure CleanRow where
  period : Option Date
  capacity : Option DecNum
  outage : Option DecNum
  percentOutage : Option DecNum
deriving DecidableEq, Repr

/-- The type-coercion block of `retrieve_and_clean_data_from_api`:
`pd.to_datetime(..., errors="coerce")` on `period` and
`pd.to_numeric(..., errors="coerce")` on the three measures. -/
def coerceRow (r : RawRow) : CleanRow :=
  ⟨r.period.bind parseYmd, r.capacity.bind parseNum,
   r.outage.bind parseNum, r.percentOutage.bind parseNum⟩

/-- Coerce all rows, then `df.dropna(subset=["period", "percentOutage"])`. -/
def cleanRows (rows : List RawRow) : List CleanRow :=
  (rows.map coerceRow).filter fun r => r.period.isSome && r.percentOutage.isSome

/-- Outcome of the HTTP request issued by the Fetcher.
`netError` is a `requests` transport failure (raises `RequestException`),
`exn` any other unexpected exception during the fetch, and `ok status body`
a completed HTTP exchange; `body = none` means the JSON payload lacks the
`response.data` structure. -/
inductive ApiResponse where
  | netError
  | exn
  | ok (status : Nat) (body : Option (List RawRow))

/-- `retrieve_and_clean_data_from_api`: `raise_for_status` raises
`HTTPError` exactly for 400 ≤ status < 600 (`RequestException`, caught →
empty); a missing `response.data` raises `ValueError` (caught → empty);
transport failures and unexpected exceptions are caught → empty;
otherwise the rows are cleaned and returned. -/
def retrieve_and_clean_data_from_api (resp : ApiResponse) : List CleanRow :=
  match resp with
  | .netError => []
  | .exn => []
  | .ok status body =>
    if 400 ≤ status ∧ status < 600 then []
    else
      match body with
      | none => []
      | some rows => cleanRows rows

/-- Outcome reported by the Table Writer (via its log lines). -/
inductive WriteOutcome where
  | emptyNoop
  | success
  | failure
deriving DecidableEq, Repr

/-- The underlying `df.to_sql(..., if_exists="append")` call: appends the
batch, or raises a storage-layer error (modelled by `writeOk = false`). -/
def raw_append (df table : List CleanRow) (writeOk : Bool) :
    Except String (List CleanRow) :=
  if writeOk then .ok (table ++ df) else .error "SQLAlchemyError"

/-- `to_sql`: empty input is a logged no-op; storage-layer errors from the
append are caught and reported, leaving the table unchanged.  Returns the
resulting table contents and the reported outcome. -/
def to_sql (df table : List CleanRow) (writeOk : Bool) :
    List CleanRow × WriteOutcome :=
  if df.isEmpty then (table, .emptyNoop)
  else
    match raw_append df table writeOk with
    | .ok t => (t, .success)
    | .error _ => (table, .failure)

/-- The value of `SELECT TOP 1 period FROM Outages ORDER BY period DESC`:
the driver may hand it back as a date object or as a string. -/
inductive DbValue where
  | date (d : Date)
  | str (s : String)
deriving DecidableEq, Repr

/-- Run-aborting errors of `main`: the two credential `ValueError`s, the
re-raised connection failure of `connect_to_database`, and the `ValueError`
of `strptime` on a malformed string watermark. -/
inductive RunError where
  | missingPassword
  | missingUsername
  | connectFailed
  | badWatermark (s : String)
deriving DecidableEq, Repr

/-- The external world of one invocation: environment credentials,
storage connectivity, the watermark scalar the storage query returns,
today's date, the upstream API as a function of the requested window,
and whether the storage append succeeds. -/
structure Env where
  hasPassword : Bool
  hasUsername : Bool
  connectOk : Bool
  dbValue : Option DbValue
  today : Date
  api : Date → Date → ApiResponse
  writeOk : Bool

/-- `connect_to_database`: raises if either credential is missing from the
environment (password checked first), re-raises a connection failure,
otherwise hands back the engine. -/
def connect_to_database (env : Env) : Except RunError Unit :=
  if !env.hasPassword then .error .missingPassword
  else if !env.hasUsername then .error .missingUsername
  else if !env.connectOk then .error .connectFailed
  else .ok ()

/-- The effective watermark of `main`: `None` (empty table) defaults to
1900-01-01; a string value is parsed with `strptime "%Y-%m-%d"`, whose
failure aborts the run; a date value is used as is. -/
def effectiveWatermark (v : Option DbValue) : Except RunError Date :=
  match v with
  | none => .ok ⟨1900, 1, 1⟩
  | some (.date d) => .ok d
  | some (.str s) =>
    match parseYmd s with
    | some d => .ok d
    | none => .error (.badWatermark s)

/-- `df_new["period"].max()` over a cleaned frame (total, with a bottom
default below every real date; `main` only evaluates it on non-empty
cleaned frames, whose periods are all present). -/
def maxPeriodD (l : List CleanRow) : Date :=
  (l.filterMap fun r => r.period).foldl maxDate ⟨0, 1, 1⟩

/-- Observable outcome of a completed run: the table contents after the
run, the window passed to the Fetcher, and whether `to_sql` was invoked. -/
structure RunResult where
  table : List CleanRow
  window : Date × Date
  writerInvoked : Bool
deriving DecidableEq, Repr

/-- `main`: connect, read the watermark, compute the window
`[watermark + 1 day, today]`, fetch and clean, return early when the
frame is empty or its maximum period is at most the watermark, otherwise
append the full frame with `to_sql`. -/
def main (env : Env) (table : List CleanRow) : Except RunError RunResult :=
  match connect_to_database env with
  | .error e => .error e
  | .ok _ =>
    match effectiveWatermark env.dbValue with
    | .error e => .error e
    | .ok w =>
      let start := nextDay w
      let df := retrieve_and_clean_data_from_api (env.api start env.today)
      if df.isEmpty then .ok ⟨table, (start, env.today), false⟩
      else if dateLe (maxPeriodD df) w then .ok ⟨table, (start, env.today), false⟩
      else .ok ⟨(to_sql df table env.writeOk).1, (start, env.today), true⟩

theorem dateLe_refl (a : Date) : dateLe a a = true := by
  simp [dateLe]

theorem dateLe_trans {a b c : Date} (hab : dateLe a b = true)
    (hbc : dateLe b c = true) : dateLe a c = true := by
  simp only [dateLe, decide_eq_true_eq] at *
  omega

theorem dateLe_maxDate_left (a b : Date) : dateLe a (maxDate a b) = true := by
  unfold maxDate
  by_cases h : dateLe a b = true
  · simp [h]
  · simp [h, dateLe_refl]

theorem dateLe_foldl_maxDate (l : List Date) :
    ∀ d : Date, dateLe d (l.foldl maxDate d) = true := by
  induction l with
  | nil => intro d; exact dateLe_refl d
  | cons x xs ih =>
    intro d
    exact dateLe_trans (dateLe_maxDate_left d x) (ih (maxDate d x))

theorem connect_to_database_ok {env : Env} (hp : env.hasPassword = true)
    (hu : env.hasUsername = true) (hc : env.connectOk = true) :
    connect_to_database env = Except.ok () := by
  simp [connect_to_database, hp, hu, hc]

theorem maxPeriodD_append_le (t b : List CleanRow) :
    dateLe (maxPeriodD t) (maxPeriodD (t ++ b)) = true := by
  unfold maxPeriodD
  rw [List.filterMap_append, List.foldl_append]
  exact dateLe_foldl_maxDate _ _

/-- C1: for a stored watermark `W` the computed fetch window is
`[W + 1 day, today]`; with an empty table (the storage query returns
`None`) the effective watermark is the 1900-01-01 epoch default, so the
window start is 1900-01-02 and the whole upstream history is requested. -/
theorem main_window (env : Env) (table : List CleanRow)
    (hp : env.hasPassword = true) (hu : env.hasUsername = true)
    (hc : env.connectOk = true) :
    (∀ W : Date, env.dbValue = some (DbValue.date W) →
      ∃ r : RunResult, main env table = Except.ok r ∧
        r.window = (nextDay W, env.today)) ∧
    (env.dbValue = none →
      ∃ r : RunResult, main env table = Except.ok r ∧
        r.window = (⟨1900, 1, 2⟩, env.today)) := by
  constructor
  · intro W hdb
    simp only [main, connect_to_database_ok hp hu hc, effectiveWatermark, hdb]
    split_ifs <;> exact ⟨_, rfl, rfl⟩
  · intro hdb
    simp only [main, connect_to_database_ok hp hu hc, effectiveWatermark, hdb]
    split_ifs <;> exact ⟨_, rfl, rfl⟩

/-- Witness for C1: a concrete run against an empty table requests the
window starting 1900-01-02. -/
theorem main_window_witness :
    ∃ r : RunResult,
      main ⟨true, true, true, none, ⟨2026, 10, 12⟩,
          (fun _ _ => ApiResponse.netError), true⟩ [] = Except.ok r ∧
      r.window = (⟨1900, 1, 2⟩, ⟨2026, 10, 12⟩) :=
  (main_window ⟨true, true, true, none, ⟨2026, 10, 12⟩,
      (fun _ _ => ApiResponse.netError), true⟩ [] rfl rfl rfl).2 rfl

/-- C2: when the maximum `period` of the fetched frame is at most the
effective watermark, `main` returns without invoking the Writer and the
table is unchanged; this includes the stale-echo case where the maximum
equals the watermark exactly. -/
theorem main_stale_no_write (env : Env) (table : List CleanRow) (w : Date)
    (hp : env.hasPassword = true) (hu : env.hasUsername = true)
    (hc : env.connectOk = true)
    (hw : effectiveWatermark env.dbValue = Except.ok w)
    (hle : dateLe
      (maxPeriodD (retrieve_and_clean_data_from_api (env.api (nextDay w) env.today)))
      w = true) :
    main env table = Except.ok ⟨table, (nextDay w, env.today), false⟩ := by
  simp only [main, connect_to_database_ok hp hu hc, hw]
  by_cases hdf :
      (retrieve_and_clean_data_from_api (env.api (nextDay w) env.today)).isEmpty
  · simp [hdf]
  · simp [hdf, hle]

/-- Witness for C2, the stale-echo case: the fetched row's period
2024-01-10 equals the watermark exactly, and nothing is written. -/
theorem main_stale_no_write_witness :
    main ⟨true, true, true, some (DbValue.date ⟨2024, 1, 10⟩), ⟨2026, 10, 12⟩,
        (fun _ _ => ApiResponse.ok 200
          (some [⟨some "2024-01-10", some "99", none, some "2"⟩])), true⟩
      [⟨some ⟨2024, 1, 10⟩, none, none, some ⟨2, 0⟩⟩] =
      Except.ok ⟨[⟨some ⟨2024, 1, 10⟩, none, none, some ⟨2, 0⟩⟩],
        (nextDay ⟨2024, 1, 10⟩, ⟨2026, 10, 12⟩), false⟩ :=
  main_stale_no_write _ _ ⟨2024, 1, 10⟩ rfl rfl rfl rfl (by decide)

/-- C3: if the Fetcher returns zero records, `main` terminates without
invoking the Writer and the table is unchanged. -/
theorem main_empty_fetch_no_write (env : Env) (table : List CleanRow) (w : Date)
    (hp : env.hasPassword = true) (hu : env.hasUsername = true)
    (hc : env.connectOk = true)
    (hw : effectiveWatermark env.dbValue = Except.ok w)
    (hempty : retrieve_and_clean_data_from_api (env.api (nextDay w) env.today) = []) :
    main env table = Except.ok ⟨table, (nextDay w, env.today), false⟩ := by
  simp [main, connect_to_database_ok hp hu hc, hw, hempty]

/-- Witness for C3: upstream answers with an empty `response.data` array
and the run ends with no write. -/
theorem main_empty_fetch_no_write_witness :
    main ⟨true, true, true, some (DbValue.date ⟨2024, 1, 10⟩), ⟨2026, 10, 12⟩,
        (fun _ _ => ApiResponse.ok 200 (some [])), true⟩ [] =
      Except.ok ⟨[], (nextDay ⟨2024, 1, 10⟩, ⟨2026, 10, 12⟩), false⟩ :=
  main_empty_fetch_no_write _ _ ⟨2024, 1, 10⟩ rfl rfl rfl rfl rfl

/-- C5: every fetch failure — transport error, an HTTP error status
(`raise_for_status` raises exactly for 400–599), payload missing the
`response.data` structure, or an unexpected exception — makes the
Fetcher return the empty sequence instead of raising. -/
theorem retrieve_failures_yield_empty :
    retrieve_and_clean_data_from_api ApiResponse.netError = [] ∧
    retrieve_and_clean_data_from_api ApiResponse.exn = [] ∧
    (∀ (status : Nat) (body : Option (List RawRow)),
      400 ≤ status → status < 600 →
      retrieve_and_clean_data_from_api (ApiResponse.ok status body) = []) ∧
    (∀ status : Nat, status < 400 ∨ 600 ≤ status →
      retrieve_and_clean_data_from_api (ApiResponse.ok status none) = []) := by
  refine ⟨rfl, rfl, ?_, ?_⟩
  · intro status body h1 h2
    simp [retrieve_and_clean_data_from_api, h1, h2]
  · intro status h
    have hno : ¬(400 ≤ status ∧ status < 600) := by omega
    simp [retrieve_and_clean_data_from_api, hno]

/-- Witness for C5: a 500 status with data present yields the empty
result, and so does a missing `response.data` structure at a 200 status. -/
theorem retrieve_failures_yield_empty_witness :
    retrieve_and_clean_data_from_api
      (ApiResponse.ok 500 (some [⟨some "2024-01-10", none, none, some "2"⟩])) = [] ∧
    retrieve_and_clean_data_from_api (ApiResponse.ok 200 none) = [] :=
  ⟨retrieve_failures_yield_empty.2.2.1 500 _ (by decide) (by decide),
   retrieve_failures_yield_empty.2.2.2 200 (Or.inl (by decide))⟩

/-- C8: `to_sql` never propagates an exception: an empty batch is a
logged no-op leaving the table unchanged, a failing append is caught and
reported as a write failure with the table unchanged, and a successful
append appends exactly the batch. -/
theorem to_sql_total_behavior :
    (∀ (table : List CleanRow) (succ : Bool),
      to_sql [] table succ = (table, WriteOutcome.emptyNoop)) ∧
    (∀ (df table : List CleanRow), df ≠ [] →
      to_sql df table false = (table, WriteOutcome.failure)) ∧
    (∀ (df table : List CleanRow), df ≠ [] →
      to_sql df table true = (table ++ df, WriteOutcome.success)) := by
  refine ⟨fun table succ => rfl, ?_, ?_⟩
  · intro df table h
    simp [to_sql, raw_append, h]
  · intro df table h
    simp [to_sql, raw_append, h]

/-- Witness for C8: a one-row batch against a failing store reports a
write failure and leaves the table unchanged. -/
theorem to_sql_total_behavior_witness :
    to_sql [⟨some ⟨2024, 1, 12⟩, none, none, some ⟨2, 0⟩⟩] [] false =
      ([], WriteOutcome.failure) :=
  to_sql_total_behavior.2.1 [⟨some ⟨2024, 1, 12⟩, none, none, some ⟨2, 0⟩⟩] []
    (by decide)

/-- C9: when the computed window is degenerate (`start > end`, the
watermark being today or later), `main` still issues the fetch with that
window instead of short-circuiting. -/
theorem main_degenerate_window_fetches (env : Env) (table : List CleanRow)
    (W : Date) (hp : env.hasPassword = true) (hu : env.hasUsername = true)
    (hc : env.connectOk = true)
    (hdb : env.dbValue = some (DbValue.date W))
    (_hdeg : dateLe (nextDay W) env.today = false) :
    ∃ r : RunResult, main env table = Except.ok r ∧
      r.window = (nextDay W, env.today) := by
  simp only [main, connect_to_database_ok hp hu hc, effectiveWatermark, hdb]
  split_ifs <;> exact ⟨_, rfl, rfl⟩

/-- Witness for C9: the watermark equals today, the window is degenerate
(start 2026-10-13 after end 2026-10-12), and the fetch is still issued
with exactly that window. -/
theorem main_degenerate_window_fetches_witness :
    ∃ r : RunResult,
      main ⟨true, true, true, some (DbValue.date ⟨2026, 10, 12⟩), ⟨2026, 10, 12⟩,
          (fun _ _ => ApiResponse.ok 200 (some [])), true⟩ [] = Except.ok r ∧
      r.window = (nextDay ⟨2026, 10, 12⟩, ⟨2026, 10, 12⟩) :=
  main_degenerate_window_fetches _ [] ⟨2026, 10, 12⟩ rfl rfl rfl rfl (by decide)

/-- C4: every record the Fetcher returns (hence every record reaching the
Writer) has a present `period` and a present `percentOutage`; a raw row
whose `period` or `percentOutage` fails coercion is dropped from the
result rather than failing the fetch. -/
theorem retrieve_clean_invariant :
    (∀ (resp : ApiResponse) (r : CleanRow),
      r ∈ retrieve_and_clean_data_from_api resp →
      r.period.isSome = true ∧ r.percentOutage.isSome = true) ∧
    (∀ (status : Nat) (pre post : List RawRow) (bad : RawRow),
      ((coerceRow bad).period.isSome = false ∨
        (coerceRow bad).percentOutage.isSome = false) →
      retrieve_and_clean_data_from_api
          (ApiResponse.ok status (some (pre ++ bad :: post))) =
        retrieve_and_clean_data_from_api
          (ApiResponse.ok status (some (pre ++ post)))) := by
  constructor
  · intro resp r hr
    cases resp with
    | netError => simp [retrieve_and_clean_data_from_api] at hr
    | exn => simp [retrieve_and_clean_data_from_api] at hr
    | ok status body =>
      simp only [retrieve_and_clean_data_from_api] at hr
      split at hr
      · simp at hr
      · cases body with
        | none => simp at hr
        | some rows =>
          simp only [cleanRows, List.mem_filter, Bool.and_eq_true] at hr
          exact hr.2
  · intro status pre post bad hbad
    by_cases hs : 400 ≤ status ∧ status < 600
    · simp [retrieve_and_clean_data_from_api, hs]
    · have hfalse :
          ((coerceRow bad).period.isSome && (coerceRow bad).percentOutage.isSome)
            = false := by
        rcases hbad with h | h <;> simp [h]
      simp only [retrieve_and_clean_data_from_api, if_neg hs, cleanRows,
        List.map_append, List.map_cons, List.filter_append, List.filter_cons,
        hfalse]
      simp

/-- Witness for C4: a response carrying one valid row and one row with an
unparseable `percentOutage` keeps only the valid row, which satisfies the
invariant; dropping the bad row equals never having received it. -/
theorem retrieve_clean_invariant_witness :
    (⟨some ⟨2024, 1, 12⟩, some ⟨99, 0⟩, none, some ⟨2, 0⟩⟩ : CleanRow).period.isSome
        = true ∧
    retrieve_and_clean_data_from_api
        (ApiResponse.ok 200 (some [⟨some "2024-01-12", some "99", none, some "2"⟩,
          ⟨some "2024-01-13", some "99", none, some "oops"⟩])) =
      retrieve_and_clean_data_from_api
        (ApiResponse.ok 200 (some [⟨some "2024-01-12", some "99", none, some "2"⟩])) :=
  ⟨(retrieve_clean_invariant.1
      (ApiResponse.ok 200 (some [⟨some "2024-01-12", some "99", none, some "2"⟩,
        ⟨some "2024-01-13", some "99", none, some "oops"⟩]))
      ⟨some ⟨2024, 1, 12⟩, some ⟨99, 0⟩, none, some ⟨2, 0⟩⟩ (by decide)).1,
   retrieve_clean_invariant.2 200
     [⟨some "2024-01-12", some "99", none, some "2"⟩] []
     ⟨some "2024-01-13", some "99", none, some "oops"⟩ (Or.inr (by decide))⟩

/-- C6: every completed run leaves the table unchanged or appends a
non-empty batch whose maximum `period` is strictly above the effective
watermark (`dateLe max w = false`), and existing rows are never updated
or deleted; consequently the maximum stored `period` never decreases. -/
theorem main_append_only (env : Env) (table : List CleanRow) (r : RunResult)
    (h : main env table = Except.ok r) :
    (r.table = table ∨
      ∃ (w : Date) (batch : List CleanRow),
        effectiveWatermark env.dbValue = Except.ok w ∧ batch ≠ [] ∧
        r.table = table ++ batch ∧ dateLe (maxPeriodD batch) w = false) ∧
    dateLe (maxPeriodD table) (maxPeriodD r.table) = true := by
  cases hcon : connect_to_database env with
  | error e => simp [main, hcon] at h
  | ok u =>
    cases hw : effectiveWatermark env.dbValue with
    | error e => simp [main, hcon, hw] at h
    | ok w =>
      simp only [main, hcon, hw] at h
      split_ifs at h with h1 h2
      · rw [Except.ok.injEq] at h
        subst h
        exact ⟨Or.inl rfl, dateLe_refl _⟩
      · rw [Except.ok.injEq] at h
        subst h
        exact ⟨Or.inl rfl, dateLe_refl _⟩
      · rw [Except.ok.injEq] at h
        subst h
        have hne :
            retrieve_and_clean_data_from_api (env.api (nextDay w) env.today) ≠ [] := by
          intro hnil
          rw [hnil] at h1
          simp at h1
        cases hwk : env.writeOk with
        | false =>
          simp only [to_sql, raw_append, hwk]
          rw [if_neg (by simpa [List.isEmpty_iff] using hne)]
          exact ⟨Or.inl rfl, dateLe_refl _⟩
        | true =>
          simp only [to_sql, raw_append, hwk]
          rw [if_neg (by simpa [List.isEmpty_iff] using hne)]
          refine ⟨Or.inr ⟨w, _, rfl, hne, rfl, ?_⟩, maxPeriodD_append_le _ _⟩
          simpa using h2

/-- Witness for C6: a successful run appending one novel row (period
2024-01-12, watermark 2024-01-10) satisfies the append-only and
monotonicity conclusions. -/
theorem main_append_only_witness :
    ([⟨some ⟨2024, 1, 12⟩, some ⟨99, 0⟩, none, some ⟨2, 0⟩⟩] : List CleanRow)
        = [] ∨
      ∃ (w : Date) (batch : List CleanRow),
        effectiveWatermark (some (DbValue.date ⟨2024, 1, 10⟩)) = Except.ok w ∧
        batch ≠ [] ∧
        ([⟨some ⟨2024, 1, 12⟩, some ⟨99, 0⟩, none, some ⟨2, 0⟩⟩] : List CleanRow)
          = [] ++ batch ∧
        dateLe (maxPeriodD batch) w = false :=
  (main_append_only
    ⟨true, true, true, some (DbValue.date ⟨2024, 1, 10⟩), ⟨2026, 10, 12⟩,
      (fun _ _ => ApiResponse.ok 200
        (some [⟨some "2024-01-12", some "99", none, some "2"⟩])), true⟩
    []
    ⟨[⟨some ⟨2024, 1, 12⟩, some ⟨99, 0⟩, none, some ⟨2, 0⟩⟩],
      (⟨2024, 1, 11⟩, ⟨2026, 10, 12⟩), true⟩
    (by rfl)).1

/-- C7: a storage-connectivity failure at startup aborts the run with the
re-raised connection error — for any upstream behaviour, so no fetch can
be attempted — while the empty-table sentinel (`None` from the storage
query) does not abort and the run completes. -/
theorem main_connect_failure_aborts :
    (∀ (env : Env) (table : List CleanRow),
      env.hasPassword = true → env.hasUsername = true → env.connectOk = false →
      main env table = Except.error RunError.connectFailed) ∧
    (∀ (env : Env) (table : List CleanRow),
      env.hasPassword = true → env.hasUsername = true → env.connectOk = true →
      env.dbValue = none → ∃ r : RunResult, main env table = Except.ok r) := by
  constructor
  · intro env table hp hu hc
    simp [main, connect_to_database, hp, hu, hc]
  · intro env table hp hu hc hdb
    simp only [main, connect_to_database_ok hp hu hc, effectiveWatermark, hdb]
    split_ifs <;> exact ⟨_, rfl⟩

/-- Witness for C7: with connectivity down the run aborts with the
connection error, and the same setup with connectivity up and an empty
table completes. -/
theorem main_connect_failure_aborts_witness :
    main ⟨true, true, false, none, ⟨2026, 10, 12⟩,
        (fun _ _ => ApiResponse.netError), true⟩ [] =
      Except.error RunError.connectFailed ∧
    ∃ r : RunResult,
      main ⟨true, true, true, none, ⟨2026, 10, 12⟩,
          (fun _ _ => ApiResponse.netError), true⟩ [] = Except.ok r :=
  ⟨main_connect_failure_aborts.1 _ [] rfl rfl rfl,
   main_connect_failure_aborts.2 _ [] rfl rfl rfl rfl⟩

/-- C10 (amended): a string watermark is parsed with
`strptime("%Y-%m-%d")`, which accepts a four-digit year and one- or
two-digit month and day — not only the zero-padded ISO rendering; every
string it parses yields a window starting the day after the parsed date,
and every string it rejects raises out of the parse and aborts the run. -/
theorem main_string_watermark (env : Env) (table : List CleanRow)
    (hp : env.hasPassword = true) (hu : env.hasUsername = true)
    (hc : env.connectOk = true) :
    (∀ (s : String) (d : Date), env.dbValue = some (DbValue.str s) →
      parseYmd s = some d →
      ∃ r : RunResult, main env table = Except.ok r ∧
        r.window = (nextDay d, env.today)) ∧
    (∀ s : String, env.dbValue = some (DbValue.str s) → parseYmd s = none →
      main env table = Except.error (RunError.badWatermark s)) := by
  constructor
  · intro s d hdb hparse
    simp only [main, connect_to_database_ok hp hu hc, effectiveWatermark, hdb,
      hparse]
    split_ifs <;> exact ⟨_, rfl, rfl⟩
  · intro s hdb hparse
    simp [main, connect_to_database_ok hp hu hc, effectiveWatermark, hdb, hparse]

/-- Witness for C10 (amended): the padded string "2024-01-31" parses and
the window starts 2024-02-01; the string "2024/01/01" fails the parse and
the run aborts. -/
theorem main_string_watermark_witness :
    (∃ r : RunResult,
      main ⟨true, true, true, some (DbValue.str "2024-01-31"), ⟨2026, 10, 12⟩,
          (fun _ _ => ApiResponse.netError), true⟩ [] = Except.ok r ∧
      r.window = (nextDay ⟨2024, 1, 31⟩, ⟨2026, 10, 12⟩)) ∧
    main ⟨true, true, true, some (DbValue.str "2024/01/01"), ⟨2026, 10, 12⟩,
        (fun _ _ => ApiResponse.netError), true⟩ [] =
      Except.error (RunError.badWatermark "2024/01/01") :=
  ⟨(main_string_watermark _ [] rfl rfl rfl).1 "2024-01-31" ⟨2024, 1, 31⟩ rfl
      (by decide),
   (main_string_watermark _ [] rfl rfl rfl).2 "2024/01/01" rfl (by decide)⟩

/-- Counterexample for C10 as stated: "1999-1-1" is not in the zero-padded
`YYYY-MM-DD` format, yet the parse accepts it (strptime is lenient about
field width) and the run completes normally with window start 1999-01-02
instead of aborting. -/
theorem main_string_watermark_cx :
    parseYmd "1999-1-1" = some ⟨1999, 1, 1⟩ ∧
    main ⟨true, true, true, some (DbValue.str "1999-1-1"), ⟨2026, 10, 12⟩,
        (fun _ _ => ApiResponse.netError), true⟩ [] =
      Except.ok ⟨[], (⟨1999, 1, 2⟩, ⟨2026, 10, 12⟩), false⟩ :=
  ⟨by decide, by rfl⟩

end EIASync
